import Mathlib

/-!
Shallow embedding of `src/src/gmplot.py` (class `GoogleMapPlotter`) and
`src/src/gmplot_service.py` (classes `PlotGroup`, `GmplotService`) from the
`gmplot_ros` repository, together with theorems settling the claims about
the run-grouping pass, the style cascade, color resolution, and the
geodesic-circle generator.

Python floats are modelled as real numbers (ideal-real semantics for the
trigonometric geometry) and as rationals where only arithmetic on literals
occurs.  Python dictionary values are modelled by the `PyVal` type below,
with Python truthiness made explicit.
-/

/-- Values that flow through the Python kwargs dictionaries: `None`, strings,
numbers and booleans. -/
inductive PyVal
  | none
  | str (s : String)
  | num (q : ℚ)
  | bool (b : Bool)
  deriving DecidableEq

/-- Python truthiness of a `PyVal`: `None`, `0` and `""` are falsy. -/
def PyVal.truthy : PyVal → Bool
  | .none => false
  | .str s => s != ""
  | .num q => q != 0
  | .bool b => b

/-- Python `a or b` (short-circuit, returns the first truthy operand, else `b`). -/
def pyOr (a b : PyVal) : PyVal :=
  if a.truthy then a else b

/-- Python `d.get(k, None)` on a kwargs dictionary modelled as an association list. -/
def dget (kw : List (String × PyVal)) (k : String) : PyVal :=
  match kw.find? (fun e => e.1 == k) with
  | some e => e.2
  | Option.none => PyVal.none

/-- Python `d.setdefault(k, v)`: insert `(k, v)` at the end only when `k` is absent. -/
def setdefault (kw : List (String × PyVal)) (k : String) (v : PyVal) : List (String × PyVal) :=
  if kw.any (fun e => e.1 == k) then kw else kw ++ [(k, v)]

/-- Python `d[k] = v`: overwrite the binding in place when `k` is present, else append. -/
def dset (kw : List (String × PyVal)) (k : String) (v : PyVal) : List (String × PyVal) :=
  if kw.any (fun e => e.1 == k) then
    kw.map (fun e => if e.1 == k then (k, v) else e)
  else kw ++ [(k, v)]

/-- Modelled from the spec: the repository imports `mpl_color_map` from a
`color_dicts` module that is not under `src/`.  Per spec sections 4.1 and 9 it
is a numeric-library color-name table mapping names to `#`-prefixed hex
strings; the code comment at `gmplot.py` line 100 documents that `"c"` maps to
`"#00FFFF"` (cyan). -/
def mpl_color_map : List (String × String) :=
  [("b", "#0000FF"), ("g", "#008000"), ("r", "#FF0000"), ("c", "#00FFFF"),
   ("m", "#FF00FF"), ("y", "#FFFF00"), ("k", "#000000"), ("w", "#FFFFFF")]

/-- Modelled from the spec: the repository imports `html_color_codes` from the
missing `color_dicts` module.  Per spec sections 4.1 and 9 it is an HTML/web
color-name table mapping names to `#`-prefixed hex strings; the code comment at
`gmplot.py` line 100 documents that `"plum"` maps to `"#DDA0DD"`. -/
def html_color_codes : List (String × String) :=
  [("red", "#FF0000"), ("plum", "#DDA0DD"), ("green", "#008000"),
   ("blue", "#0000FF"), ("black", "#000000"), ("white", "#FFFFFF"),
   ("cyan", "#00FFFF")]

/-- Python `table.get(s, s)` for the string-keyed color alias tables. -/
def lookupColor (table : List (String × String)) (s : String) : String :=
  match table.find? (fun e => e.1 == s) with
  | some e => e.2
  | Option.none => s

/-- The two-table resolution chain used at `gmplot.py` lines 38-39, 45-46 and
103-104: first `mpl_color_map`, then `html_color_codes`, each falling back to
its input. -/
def resolveColor (s : String) : String :=
  lookupColor html_color_codes (lookupColor mpl_color_map s)

/-- The resolution chain applied to a `PyVal`: non-strings are never keys of
the (string-keyed) tables, so `dict.get(v, v)` returns them unchanged. -/
def resolveVal : PyVal → PyVal
  | .str s => .str (resolveColor s)
  | v => v

/-- Python `color[1:]` as used at `gmplot.py` line 40 (a slice on a string).
The call sites modelled here always pass strings. -/
def pySlice1 : PyVal → PyVal
  | .str s => .str (s.drop 1)
  | v => v

/-- The style record built by `GoogleMapPlotter._process_kwargs`
(`gmplot.py` lines 72-109). -/
structure Settings where
  edge_color : PyVal
  edge_alpha : PyVal
  edge_width : PyVal
  face_alpha : PyVal
  face_color : PyVal
  color : PyVal
  closed : PyVal
  deriving DecidableEq

/-- `GoogleMapPlotter._process_kwargs` (`gmplot.py` lines 72-109): each field is
a Python `or`-chain over synonym keys; afterwards the loop at lines 101-105
passes every field whose key contains `'color'` (`edge_color`, `face_color`,
`color`) through the two alias tables, and line 107 adds `closed`. -/
def process_kwargs (kwargs : List (String × PyVal)) : Settings :=
  let edge_color := pyOr (dget kwargs "color") (pyOr (dget kwargs "edge_color")
    (pyOr (dget kwargs "ec") (PyVal.str "#000000")))
  let edge_alpha := pyOr (dget kwargs "alpha") (pyOr (dget kwargs "edge_alpha")
    (pyOr (dget kwargs "ea") (PyVal.num 1)))
  let edge_width := pyOr (dget kwargs "edge_width") (pyOr (dget kwargs "ew") (PyVal.num 1))
  let face_alpha := pyOr (dget kwargs "alpha") (pyOr (dget kwargs "face_alpha")
    (pyOr (dget kwargs "fa") (PyVal.num (3/10))))
  let face_color := pyOr (dget kwargs "color") (pyOr (dget kwargs "face_color")
    (pyOr (dget kwargs "fc") (PyVal.str "#000000")))
  let color := pyOr (dget kwargs "color") (pyOr (dget kwargs "c")
    (pyOr edge_color face_color))
  { edge_color := resolveVal edge_color
    edge_alpha := edge_alpha
    edge_width := edge_width
    face_alpha := face_alpha
    face_color := resolveVal face_color
    color := resolveVal color
    closed := dget kwargs "closed" }

/-- Python's `math.atan2(y, x)` in ideal-real semantics: the angle of the point
`(x, y)`, with range `(-pi, pi]`. -/
noncomputable def atan2 (y x : ℝ) : ℝ :=
  if 0 < x then Real.arctan (y / x)
  else if x < 0 ∧ 0 ≤ y then Real.arctan (y / x) + Real.pi
  else if x < 0 then Real.arctan (y / x) - Real.pi
  else if 0 < y then Real.pi / 2
  else if y < 0 then -(Real.pi / 2)
  else 0

/-- Python's float `%` (with a positive divisor) in ideal-real semantics:
`a % b = a - b * floor (a / b)`. -/
noncomputable def rmod (a b : ℝ) : ℝ :=
  a - b * (⌊a / b⌋ : ℤ)

/-- The body of the loop in `GoogleMapPlotter.get_cycle` (`gmplot.py` lines
187-195): the great-circle destination point from `(lat, lng)` at angular
radius `d = (rad/1000)/6378.8` along bearing `a` degrees, with the longitude
shifted by the modulo-then-shift formula of line 193. -/
noncomputable def destPoint (lat lng rad : ℝ) (a : ℕ) : ℝ × ℝ :=
  let d := (rad / 1000) / 6378.8
  let lat1 := (Real.pi / 180) * lat
  let lng1 := (Real.pi / 180) * lng
  let tc := (Real.pi / 180) * (a : ℝ)
  let y := Real.arcsin (Real.sin lat1 * Real.cos d + Real.cos lat1 * Real.sin d * Real.cos tc)
  let dlng := atan2 (Real.sin tc * Real.sin d * Real.cos lat1)
    (Real.cos d - Real.sin lat1 * Real.sin y)
  let x := rmod (lng1 - dlng + Real.pi) (2 * Real.pi) - Real.pi
  (y * (180 / Real.pi), x * (180 / Real.pi))

/-- `GoogleMapPlotter.get_cycle` (`gmplot.py` lines 179-196): the loop over
`r = [x * 10 for x in range(36)]` appending one destination point per bearing. -/
noncomputable def get_cycle (lat lng rad : ℝ) : List (ℝ × ℝ) :=
  let r := (List.range 36).map (fun x => x * 10)
  r.foldl (fun cycle a => cycle ++ [destPoint lat lng rad a]) []

/-- The state of a `GoogleMapPlotter` instance (`gmplot.py` lines 16-33):
the accumulated annotation stores and the map-level options. -/
structure GoogleMapPlotter where
  center : ℝ × ℝ
  zoom : ℤ
  paths : List (List (ℝ × ℝ) × Settings)
  shapes : List (List (ℝ × ℝ) × Settings)
  points : List (ℝ × ℝ × PyVal × String)
  text_points : List (ℝ × ℝ × PyVal × String)
  map_type : String

/-- `GoogleMapPlotter.__init__` (`gmplot.py` lines 16-33).  Note the Python
expression `('satellite' or 'Satellite' or 'SATELLITE')` evaluates to the
single string `'satellite'`, so only `map_type == 'satellite'` selects the
satellite map. -/
def GoogleMapPlotter.init (center_lat center_lng : ℝ) (zoom : ℤ)
    (map_type : Option String) : GoogleMapPlotter :=
  { center := (center_lat, center_lng)
    zoom := zoom
    paths := []
    shapes := []
    points := []
    text_points := []
    map_type :=
      if map_type = some "satellite" then "google.maps.MapTypeId.SATELLITE"
      else "google.maps.MapTypeId.ROADMAP" }

/-- `GoogleMapPlotter.marker` (`gmplot.py` lines 35-40): `c` overrides `color`
when truthy, the color runs through both alias tables, and the stored point
keeps `color[1:]` (the string minus its first character). -/
def GoogleMapPlotter.marker (self : GoogleMapPlotter) (lat lng : ℝ)
    (color : PyVal) (c : PyVal) (title : String) : GoogleMapPlotter :=
  let color := if c.truthy then c else color
  let color := resolveVal color
  { self with points := self.points ++ [(lat, lng, pySlice1 color, title)] }

/-- `GoogleMapPlotter.circle` (`gmplot.py` lines 63-70): seeds `face_alpha`,
`face_color` and `color` defaults via `setdefault`, resolves the style, and
appends one `(get_cycle path, settings)` entry to the shapes store. -/
noncomputable def GoogleMapPlotter.circle (self : GoogleMapPlotter) (lat lng radius : ℝ)
    (color : PyVal) (c : PyVal) (kwargs : List (String × PyVal)) : GoogleMapPlotter :=
  let color := pyOr color c
  let kw1 := setdefault kwargs "face_alpha" (PyVal.num (1/2))
  let kw2 := setdefault kw1 "face_color" (PyVal.str "#000000")
  let kw3 := setdefault kw2 "color" color
  let settings := process_kwargs kw3
  { self with shapes := self.shapes ++ [(get_cycle lat lng radius, settings)] }

/-- Keyword expansion of `**settings` at the call `self.circle(lat, lng, size,
**settings)` (`gmplot.py` line 61): the `color` entry binds `circle`'s named
parameter `color`, the remaining six entries arrive as `circle`'s kwargs in
insertion order. -/
def settingsToKwargs (s : Settings) : List (String × PyVal) :=
  [("edge_color", s.edge_color), ("edge_alpha", s.edge_alpha),
   ("edge_width", s.edge_width), ("face_alpha", s.face_alpha),
   ("face_color", s.face_color), ("closed", s.closed)]

/-- Numeric value of a `PyVal` used where Python would require a number
(the `size` argument flowing into `get_cycle` as a radius). -/
def PyVal.toReal : PyVal → ℝ
  | .num q => (q : ℝ)
  | _ => 0

/-- `GoogleMapPlotter.scatter` (`gmplot.py` lines 51-61): resolves the shared
settings once, then loops over the zipped coordinates calling `marker` (with
`settings['color']`) or `circle` (with `size` as radius and `**settings`) once
per point. -/
noncomputable def GoogleMapPlotter.scatter (self : GoogleMapPlotter)
    (lats lngs : List ℝ) (color size : PyVal) (marker : Bool)
    (c s : PyVal) (kwargs : List (String × PyVal)) : GoogleMapPlotter :=
  let color := pyOr color c
  let size := pyOr size (pyOr s (PyVal.num 40))
  let kw1 := dset kwargs "color" color
  let kw2 := dset kw1 "size" size
  let settings := process_kwargs kw2
  (lats.zip lngs).foldl
    (fun g q =>
      if marker then g.marker q.1 q.2 settings.color PyVal.none "no implementation"
      else g.circle q.1 q.2 size.toReal settings.color PyVal.none (settingsToKwargs settings))
    self

/-- A point descriptor from the `PlotMap` service request (the fields of
`gmplot_msgs/PlotPoint` used by `gmplot_service.py`). -/
structure PlotPoint where
  type : ℕ
  size : ℚ
  color : String
  lat : ℚ
  lon : ℚ
  text : String
  deriving DecidableEq

/-- `PlotGroup` (`gmplot_service.py` lines 45-51): style key copied from the
first point, the member list, and the `accepting_new_members` flag. -/
structure PlotGroup where
  size : ℚ
  color : String
  type : ℕ
  members : List PlotPoint
  accepting_new_members : Bool
  deriving DecidableEq

/-- `PlotGroup.__init__` (`gmplot_service.py` lines 46-51). -/
def PlotGroup.init (first_point : PlotPoint) : PlotGroup :=
  { size := first_point.size
    color := first_point.color
    type := first_point.type
    members := [first_point]
    accepting_new_members := true }

/-- `PlotGroup.add_to_group` (`gmplot_service.py` lines 56-65): the point is
appended when type, size and color match and the group still accepts members;
otherwise the group is permanently closed and `False` is returned. -/
def PlotGroup.add_to_group (self : PlotGroup) (plot_point : PlotPoint) : PlotGroup × Bool :=
  if plot_point.type = self.type ∧ plot_point.size = self.size ∧
      plot_point.color = self.color ∧ self.accepting_new_members = true then
    ({ self with members := self.members ++ [plot_point] }, true)
  else
    ({ self with accepting_new_members := false }, false)

/-- One iteration of the inner loop of `service_cb` (`gmplot_service.py` lines
104-105): every group is offered the point, and `added_to_group` is overwritten
with each group's result (so only the last group's answer survives). -/
def tryAdd (p : PlotPoint) (st : List PlotGroup × Bool) (group : PlotGroup) :
    List PlotGroup × Bool :=
  (st.1 ++ [(group.add_to_group p).1], (group.add_to_group p).2)

/-- The body of the grouping loop of `service_cb` (`gmplot_service.py` lines
101-110) for a single incoming point: offer the point to every existing group,
then start a new group when `added_to_group` ended up `False`. -/
def processPoint (plot_groups : List PlotGroup) (p : PlotPoint) : List PlotGroup :=
  let st := plot_groups.foldl (tryAdd p) (([] : List PlotGroup), false)
  if st.2 then st.1 else st.1 ++ [PlotGroup.init p]

/-- The grouping pass of `service_cb` (`gmplot_service.py` lines 100-110) over
the whole request: fold `processPoint` over the ordered points. -/
def groupPass (points : List PlotPoint) : List PlotGroup :=
  points.foldl processPoint []

/-- Variant of the per-point grouping step that consults only the most
recently created group (the behavior the claim compares the full scan to). -/
def processPointLast (plot_groups : List PlotGroup) (p : PlotPoint) : List PlotGroup :=
  match plot_groups.getLast? with
  | Option.none => [PlotGroup.init p]
  | some g =>
    let r := g.add_to_group p
    if r.2 then plot_groups.dropLast ++ [r.1]
    else plot_groups.dropLast ++ [r.1, PlotGroup.init p]

/-- The grouping pass rebuilt from the last-group-only step. -/
def groupPassLast (points : List PlotPoint) : List PlotGroup :=
  points.foldl processPointLast []

/-- Whether a point carries exactly the style key `(t, sz, c)`. -/
def sameStyle (t : ℕ) (sz : ℚ) (c : String) (p : PlotPoint) : Bool :=
  p.type == t && p.size == sz && p.color == c

/-- Helper for `maximalRuns`: extend the current run `cur` (of style
`(t, sz, c)`) while incoming points keep that style, closing it and opening a
fresh run at the first style change. -/
def maximalRunsAux (t : ℕ) (sz : ℚ) (c : String) (cur : List PlotPoint) :
    List PlotPoint → List (List PlotPoint)
  | [] => [cur]
  | p :: ps =>
    if sameStyle t sz c p then maximalRunsAux t sz c (cur ++ [p]) ps
    else cur :: maximalRunsAux p.type p.size p.color [p] ps

/-- Spec-side definition (spec sections 4.4 and 8): the partition of an ordered
point sequence into maximal runs of consecutive points sharing
`(type, size, color)`, in original order. -/
def maximalRuns : List PlotPoint → List (List PlotPoint)
  | [] => []
  | p :: ps => maximalRunsAux p.type p.size p.color [p] ps

/-- The four-point input of the grouping example in spec section 8:
`[(M,1,red), (M,1,red), (M,2,red), (M,1,red)]` as `(type, size, color)`,
with `M = 2` and filler coordinates. -/
def c2ExamplePoints : List PlotPoint :=
  [⟨2, 1, "red", 0, 0, ""⟩, ⟨2, 1, "red", 0, 0, ""⟩,
   ⟨2, 2, "red", 0, 0, ""⟩, ⟨2, 1, "red", 0, 0, ""⟩]

/-- A still-open group with style key `(t, sz, c)` and member list `cur`
(the shape of the most recently created group during the grouping pass). -/
def openGroup (t : ℕ) (sz : ℚ) (c : String) (cur : List PlotPoint) : PlotGroup :=
  { size := sz, color := c, type := t, members := cur, accepting_new_members := true }

/-- A permanently closed group with style key `(t, sz, c)` and member list `cur`. -/
def closedGroup (t : ℕ) (sz : ℚ) (c : String) (cur : List PlotPoint) : PlotGroup :=
  { size := sz, color := c, type := t, members := cur, accepting_new_members := false }

/-- Invariant of the grouping loop state: either no group exists yet, or all
groups except the most recently created one are permanently closed and the last
one still accepts members. -/
def lastOpenInv (gs : List PlotGroup) : Prop :=
  gs = [] ∨ ∃ done g, gs = done ++ [g] ∧
    (∀ x ∈ done, x.accepting_new_members = false) ∧ g.accepting_new_members = true

/-- Whether a character is a hexadecimal digit (used to state the spec's
notion of a canonical color: six hex digits, no `#`). -/
def isHexChar (ch : Char) : Bool :=
  ch.isDigit || ('A' ≤ ch && ch ≤ 'F') || ('a' ≤ ch && ch ≤ 'f')

theorem closed_update_eq (g : PlotGroup) (h : g.accepting_new_members = false) :
    { g with accepting_new_members := false } = g := by
  cases g
  simp_all

theorem add_to_group_closed (g : PlotGroup) (p : PlotPoint)
    (h : g.accepting_new_members = false) : g.add_to_group p = (g, false) := by
  rw [PlotGroup.add_to_group, if_neg, closed_update_eq g h]
  simp [h]

theorem foldl_tryAdd_closed (p : PlotPoint) :
    ∀ (done : List PlotGroup) (acc : List PlotGroup),
      (∀ g ∈ done, g.accepting_new_members = false) →
      done.foldl (tryAdd p) (acc, false) = (acc ++ done, false)
  | [], acc, _ => by simp
  | g :: gs, acc, h => by
    rw [List.foldl_cons]
    have hg : g.accepting_new_members = false := h g (by simp)
    have step : tryAdd p (acc, false) g = (acc ++ [g], false) := by
      rw [tryAdd, add_to_group_closed g p hg]
    rw [step, foldl_tryAdd_closed p gs (acc ++ [g]) (fun x hx => h x (by simp [hx]))]
    simp

theorem processPoint_concat (done : List PlotGroup) (g0 : PlotGroup) (p : PlotPoint)
    (h : ∀ g ∈ done, g.accepting_new_members = false) :
    processPoint (done ++ [g0]) p =
      if (g0.add_to_group p).2 then done ++ [(g0.add_to_group p).1]
      else done ++ [(g0.add_to_group p).1, PlotGroup.init p] := by
  rw [processPoint, List.foldl_append, foldl_tryAdd_closed p done [] h]
  rw [List.foldl_cons, List.foldl_nil, tryAdd]
  simp only [List.nil_append]
  by_cases hb : (g0.add_to_group p).2 = true
  · rw [if_pos hb, if_pos hb]
  · rw [if_neg hb, if_neg hb, List.append_assoc]
    rfl


theorem add_to_group_open_pos (t : ℕ) (sz : ℚ) (c : String) (cur : List PlotPoint)
    (p : PlotPoint) (hs : p.type = t ∧ p.size = sz ∧ p.color = c) :
    (openGroup t sz c cur).add_to_group p = (openGroup t sz c (cur ++ [p]), true) := by
  rw [openGroup, PlotGroup.add_to_group, if_pos ⟨hs.1, hs.2.1, hs.2.2, rfl⟩]
  rfl

theorem add_to_group_open_neg (t : ℕ) (sz : ℚ) (c : String) (cur : List PlotPoint)
    (p : PlotPoint) (hs : ¬(p.type = t ∧ p.size = sz ∧ p.color = c)) :
    (openGroup t sz c cur).add_to_group p = (closedGroup t sz c cur, false) := by
  rw [openGroup, PlotGroup.add_to_group,
    if_neg (fun hc => hs ⟨hc.1, hc.2.1, hc.2.2.1⟩)]
  rfl

theorem init_eq_openGroup (p : PlotPoint) :
    PlotGroup.init p = openGroup p.type p.size p.color [p] := rfl

theorem processPoint_open_pos (done : List PlotGroup) (t : ℕ) (sz : ℚ) (c : String)
    (cur : List PlotPoint) (p : PlotPoint)
    (h : ∀ g ∈ done, g.accepting_new_members = false)
    (hs : p.type = t ∧ p.size = sz ∧ p.color = c) :
    processPoint (done ++ [openGroup t sz c cur]) p
      = done ++ [openGroup t sz c (cur ++ [p])] := by
  rw [processPoint_concat done _ p h, add_to_group_open_pos t sz c cur p hs]
  simp

theorem processPoint_open_neg (done : List PlotGroup) (t : ℕ) (sz : ℚ) (c : String)
    (cur : List PlotPoint) (p : PlotPoint)
    (h : ∀ g ∈ done, g.accepting_new_members = false)
    (hs : ¬(p.type = t ∧ p.size = sz ∧ p.color = c)) :
    processPoint (done ++ [openGroup t sz c cur]) p
      = done ++ [closedGroup t sz c cur, PlotGroup.init p] := by
  rw [processPoint_concat done _ p h, add_to_group_open_neg t sz c cur p hs]
  simp

theorem foldl_processPoint_run :
    ∀ (ps : List PlotPoint) (done : List PlotGroup) (t : ℕ) (sz : ℚ) (c : String)
      (cur : List PlotPoint),
      (∀ g ∈ done, g.accepting_new_members = false) →
      (ps.foldl processPoint (done ++ [openGroup t sz c cur])).map PlotGroup.members
        = done.map PlotGroup.members ++ maximalRunsAux t sz c cur ps
  | [], done, t, sz, c, cur, _ => by
    simp [maximalRunsAux, openGroup]
  | p :: ps, done, t, sz, c, cur, h => by
    rw [List.foldl_cons]
    by_cases hs : p.type = t ∧ p.size = sz ∧ p.color = c
    · rw [processPoint_open_pos done t sz c cur p h hs]
      rw [foldl_processPoint_run ps done t sz c (cur ++ [p]) h]
      have hstyle : sameStyle t sz c p = true := by
        simp [sameStyle, hs.1, hs.2.1, hs.2.2]
      rw [maximalRunsAux, if_pos hstyle]
    · rw [processPoint_open_neg done t sz c cur p h hs]
      have hsplit : done ++ [closedGroup t sz c cur, PlotGroup.init p]
          = (done ++ [closedGroup t sz c cur]) ++ [openGroup p.type p.size p.color [p]] := by
        rw [init_eq_openGroup]
        simp
      rw [hsplit]
      have h' : ∀ g ∈ done ++ [closedGroup t sz c cur],
          g.accepting_new_members = false := by
        intro g hg
        rcases List.mem_append.mp hg with hg | hg
        · exact h g hg
        · simp at hg
          rw [hg]
          rfl
      rw [foldl_processPoint_run ps _ p.type p.size p.color [p] h']
      have hstyle : sameStyle t sz c p = false := by
        rw [sameStyle]
        by_contra hb
        simp only [Bool.not_eq_false, Bool.and_eq_true, beq_iff_eq] at hb
        exact hs ⟨hb.1.1, hb.1.2, hb.2⟩
      rw [maximalRunsAux, if_neg (by rw [hstyle]; exact Bool.false_ne_true)]
      simp [closedGroup]

theorem groupPass_members : ∀ ps : List PlotPoint,
    (groupPass ps).map PlotGroup.members = maximalRuns ps
  | [] => rfl
  | p :: ps => by
    rw [groupPass, List.foldl_cons]
    have h0 : processPoint [] p = [] ++ [openGroup p.type p.size p.color [p]] := rfl
    rw [h0, foldl_processPoint_run ps [] p.type p.size p.color [p] (by simp)]
    simp [maximalRuns]

theorem join_maximalRunsAux :
    ∀ (ps : List PlotPoint) (t : ℕ) (sz : ℚ) (c : String) (cur : List PlotPoint),
      (maximalRunsAux t sz c cur ps).flatten = cur ++ ps
  | [], t, sz, c, cur => by simp [maximalRunsAux]
  | p :: ps, t, sz, c, cur => by
    rw [maximalRunsAux]
    by_cases hstyle : sameStyle t sz c p = true
    · rw [if_pos hstyle, join_maximalRunsAux ps t sz c (cur ++ [p])]
      simp
    · rw [if_neg hstyle, List.flatten_cons,
        join_maximalRunsAux ps p.type p.size p.color [p]]
      simp

theorem join_maximalRuns : ∀ ps : List PlotPoint, (maximalRuns ps).flatten = ps
  | [] => rfl
  | p :: ps => by
    rw [maximalRuns, join_maximalRunsAux ps p.type p.size p.color [p]]
    rfl

theorem lastOpenInv_processPoint (gs : List PlotGroup) (p : PlotPoint)
    (h : lastOpenInv gs) : lastOpenInv (processPoint gs p) := by
  rcases h with h | ⟨done, g, rfl, hdone, hg⟩
  · subst h
    right
    exact ⟨[], PlotGroup.init p, rfl, by simp, rfl⟩
  · have hgshape : g = openGroup g.type g.size g.color g.members := by
      rw [openGroup]
      cases g
      simp_all
    rw [hgshape]
    by_cases hs : p.type = g.type ∧ p.size = g.size ∧ p.color = g.color
    · rw [processPoint_open_pos done _ _ _ _ p hdone hs]
      exact Or.inr ⟨done, _, rfl, hdone, rfl⟩
    · rw [processPoint_open_neg done _ _ _ _ p hdone hs]
      refine Or.inr ⟨done ++ [closedGroup g.type g.size g.color g.members],
        PlotGroup.init p, by simp, ?_, rfl⟩
      intro x hx
      rcases List.mem_append.mp hx with hx | hx
      · exact hdone x hx
      · simp at hx
        rw [hx]
        rfl

theorem lastOpenInv_foldl :
    ∀ (ps : List PlotPoint) (gs : List PlotGroup), lastOpenInv gs →
      lastOpenInv (ps.foldl processPoint gs)
  | [], gs, h => h
  | p :: ps, gs, h => by
    rw [List.foldl_cons]
    exact lastOpenInv_foldl ps _ (lastOpenInv_processPoint gs p h)

theorem lastOpenInv_groupPass (ps : List PlotPoint) : lastOpenInv (groupPass ps) :=
  lastOpenInv_foldl ps [] (Or.inl rfl)

theorem processPointLast_eq_processPoint (gs : List PlotGroup) (p : PlotPoint)
    (h : lastOpenInv gs) : processPointLast gs p = processPoint gs p := by
  rcases h with h | ⟨done, g, rfl, hdone, hg⟩
  · subst h
    rfl
  · rw [processPointLast, List.getLast?_concat]
    rw [processPoint_concat done g p hdone]
    simp only [List.dropLast_concat]

theorem foldl_processPointLast_eq :
    ∀ (ps : List PlotPoint) (gs : List PlotGroup), lastOpenInv gs →
      ps.foldl processPointLast gs = ps.foldl processPoint gs
  | [], _, _ => rfl
  | p :: ps, gs, h => by
    rw [List.foldl_cons, List.foldl_cons, processPointLast_eq_processPoint gs p h]
    exact foldl_processPointLast_eq ps _ (lastOpenInv_processPoint gs p h)

theorem groupPassLast_eq_groupPass (ps : List PlotPoint) :
    groupPassLast ps = groupPass ps :=
  foldl_processPointLast_eq ps [] (Or.inl rfl)

theorem foldl_append_map (f : ℕ → ℝ × ℝ) :
    ∀ (l : List ℕ) (init : List (ℝ × ℝ)),
      l.foldl (fun acc a => acc ++ [f a]) init = init ++ l.map f
  | [], init => by simp
  | a :: l, init => by
    rw [List.foldl_cons, foldl_append_map f l (init ++ [f a])]
    simp

theorem get_cycle_eq_map (lat lng rad : ℝ) :
    get_cycle lat lng rad
      = ((List.range 36).map (fun x => x * 10)).map (destPoint lat lng rad) := by
  rw [get_cycle, foldl_append_map (destPoint lat lng rad)]
  rfl

theorem rmod_eq_fract (a b : ℝ) (hb : b ≠ 0) : rmod a b = b * Int.fract (a / b) := by
  rw [rmod, Int.fract]
  field_simp

theorem rmod_nonneg (a b : ℝ) (hb : 0 < b) : 0 ≤ rmod a b := by
  rw [rmod_eq_fract a b (ne_of_gt hb)]
  exact mul_nonneg (le_of_lt hb) (Int.fract_nonneg _)

theorem rmod_lt (a b : ℝ) (hb : 0 < b) : rmod a b < b := by
  rw [rmod_eq_fract a b (ne_of_gt hb)]
  calc b * Int.fract (a / b) < b * 1 := (mul_lt_mul_left hb).mpr (Int.fract_lt_one _)
  _ = b := mul_one b

theorem destPoint_snd_bounds (lat lng rad : ℝ) (a : ℕ) :
    -180 ≤ (destPoint lat lng rad a).2 ∧ (destPoint lat lng rad a).2 < 180 := by
  have hpi : (0 : ℝ) < Real.pi := Real.pi_pos
  have h2pi : (0 : ℝ) < 2 * Real.pi := by linarith
  have hscale : (0 : ℝ) < 180 / Real.pi := by positivity
  rw [destPoint]
  simp only
  set v := rmod ((Real.pi / 180) * lng -
      atan2 (Real.sin ((Real.pi / 180) * (a : ℝ)) * Real.sin ((rad / 1000) / 6378.8) *
          Real.cos ((Real.pi / 180) * lat))
        (Real.cos ((rad / 1000) / 6378.8) - Real.sin ((Real.pi / 180) * lat) *
          Real.sin (Real.arcsin (Real.sin ((Real.pi / 180) * lat) *
            Real.cos ((rad / 1000) / 6378.8) + Real.cos ((Real.pi / 180) * lat) *
              Real.sin ((rad / 1000) / 6378.8) *
                Real.cos ((Real.pi / 180) * (a : ℝ))))) + Real.pi) (2 * Real.pi) with hv
  have h0 : 0 ≤ v := rmod_nonneg _ _ h2pi
  have h1 : v < 2 * Real.pi := rmod_lt _ _ h2pi
  have hexp : (v - Real.pi) * (180 / Real.pi) = v * (180 / Real.pi) - 180 := by
    field_simp
    ring
  have hlow : 0 ≤ v * (180 / Real.pi) := mul_nonneg h0 (le_of_lt hscale)
  have hhigh : v * (180 / Real.pi) < 360 := by
    have hm := mul_lt_mul_of_pos_right h1 hscale
    have h360 : 2 * Real.pi * (180 / Real.pi) = 360 := by
      field_simp
      ring
    rwa [h360] at hm
  constructor
  · rw [hexp]
    linarith
  · rw [hexp]
    linarith

theorem atan2_zero_one : atan2 0 1 = 0 := by
  rw [atan2, if_pos one_pos]
  norm_num [Real.arctan_zero]

theorem rmod_zero (b : ℝ) : rmod 0 b = 0 := by
  rw [rmod]
  norm_num

theorem destPoint_example_snd : (destPoint 0 (-180) 0 0).2 = -180 := by
  have hlng : (Real.pi / 180) * (-180 : ℝ) = -Real.pi := by
    field_simp
  rw [destPoint]
  simp only [Nat.cast_zero, mul_zero, hlng]
  norm_num [Real.sin_zero, Real.cos_zero, Real.arcsin_zero, atan2_zero_one, rmod_zero]
  field_simp

theorem lookupColor_of_not_mem (table : List (String × String)) (s : String)
    (h : s ∉ table.map Prod.fst) : lookupColor table s = s := by
  rw [lookupColor]
  rw [List.find?_eq_none.mpr]
  intro x hx
  simp only [beq_iff_eq]
  intro he
  exact h (List.mem_map.mpr ⟨x, hx, he⟩)

theorem resolveColor_of_not_mem (t : String) (h1 : t ∉ mpl_color_map.map Prod.fst)
    (h2 : t ∉ html_color_codes.map Prod.fst) : resolveColor t = t := by
  rw [resolveColor, lookupColor_of_not_mem mpl_color_map t h1,
    lookupColor_of_not_mem html_color_codes t h2]

/-- C2: for every ordered input sequence, the grouping pass of `service_cb`
produces exactly the partition into maximal runs of consecutive points with
equal `(type, size, color)`, in original order, one group per run; on the
example input `[(M,1,red), (M,1,red), (M,2,red), (M,1,red)]` it produces three
groups of member counts `[2, 1, 1]`, the fourth point starting a new group
instead of rejoining the first despite matching its style. -/
theorem grouping_is_maximal_runs_c2 :
    (∀ ps : List PlotPoint, (groupPass ps).map PlotGroup.members = maximalRuns ps) ∧
    (groupPass c2ExamplePoints).map (fun g => g.members.length) = [2, 1, 1] :=
  ⟨groupPass_members, by decide⟩

/-- C6: concatenating the members of all groups produced by the grouping pass,
in group order and within-group order, reproduces the original input sequence
exactly: the grouping is a lossless, order-preserving partition. -/
theorem grouping_lossless_c6 (ps : List PlotPoint) :
    ((groupPass ps).map PlotGroup.members).flatten = ps := by
  rw [groupPass_members, join_maximalRuns]

/-- C9: after processing each point (equivalently, after any input prefix `ps`),
every group except the most recently created one has
`accepting_new_members = false`, so at most one existing group can accept an
incoming point; consequently the loop that overwrites `added_to_group` with
every group's result computes the same grouping as testing only the last
group. -/
theorem grouping_invariant_c9 (ps : List PlotPoint) :
    ((groupPass ps).dropLast).Forall (fun g => g.accepting_new_members = false) ∧
    groupPassLast ps = groupPass ps := by
  refine ⟨?_, groupPassLast_eq_groupPass ps⟩
  rcases lastOpenInv_groupPass ps with h | ⟨done, g, heq, hdone, _⟩
  · rw [h]
    exact trivial
  · rw [heq, List.dropLast_concat, List.forall_iff_forall_mem]
    exact hdone

/-- C8: with the option mapping `{alpha: 0.7}` and no other keys, the resulting
`edge_alpha` and `face_alpha` both equal `0.7`: the single `alpha` option feeds
both the edge and the face alpha fields simultaneously. -/
theorem alpha_feeds_both_c8 :
    (process_kwargs [("alpha", PyVal.num (7/10))]).edge_alpha = PyVal.num (7/10) ∧
    (process_kwargs [("alpha", PyVal.num (7/10))]).face_alpha = PyVal.num (7/10) := by
  have h : (7/10 : ℚ) ≠ 0 := by norm_num
  constructor <;> simp [process_kwargs, dget, pyOr, PyVal.truthy, h]

/-- C4 counterexample: on the empty option mapping the resulting `edge_color`
is the 7-character string `"#000000"`, not the claimed 6-hex-digit string
`"000000"`: `_process_kwargs` never strips the leading `#`. -/
theorem process_kwargs_empty_counterexample_c4 :
    (process_kwargs []).edge_color ≠ PyVal.str "000000" := by
  decide

/-- C4 (amended): with an empty option mapping the resulting style record is
`{edge_color: "#000000", edge_alpha: 1.0, edge_width: 1.0, face_alpha: 0.3,
face_color: "#000000", color: "#000000", closed: None}` — the defaults the
claim states, except that every color field keeps its leading `#` at this
stage (the `#` is stripped only later, by `marker`, for the points store). -/
theorem process_kwargs_empty_c4 :
    process_kwargs [] =
      { edge_color := PyVal.str "#000000", edge_alpha := PyVal.num 1,
        edge_width := PyVal.num 1, face_alpha := PyVal.num (3/10),
        face_color := PyVal.str "#000000", color := PyVal.str "#000000",
        closed := PyVal.none } := by
  simp [process_kwargs, dget, pyOr, PyVal.truthy, resolveVal, resolveColor, lookupColor,
    mpl_color_map, html_color_codes]

/-- C7: for every color token present in either alias table, the two-table
resolution chain is idempotent (`resolve (resolve t) = resolve t`), and
resolving an already-canonical color (a 6-hex-digit string with no `#`) is a
no-op. -/
theorem resolve_idempotent_c7 :
    (∀ t : String,
      t ∈ mpl_color_map.map Prod.fst ∨ t ∈ html_color_codes.map Prod.fst →
      resolveColor (resolveColor t) = resolveColor t) ∧
    (∀ s : String, s.length = 6 → (∀ ch ∈ s.data, isHexChar ch = true) →
      resolveColor s = s) := by
  constructor
  · intro t ht
    have hall : ∀ x ∈ mpl_color_map.map Prod.fst ++ html_color_codes.map Prod.fst,
        resolveColor (resolveColor x) = resolveColor x := by decide
    refine hall t ?_
    rcases ht with h | h
    · exact List.mem_append.mpr (Or.inl h)
    · exact List.mem_append.mpr (Or.inr h)
  · intro s h6 _
    have hkeys : ∀ x ∈ mpl_color_map.map Prod.fst ++ html_color_codes.map Prod.fst,
        x.length ≠ 6 := by decide
    apply resolveColor_of_not_mem
    · intro hmem
      exact hkeys s (List.mem_append.mpr (Or.inl hmem)) h6
    · intro hmem
      exact hkeys s (List.mem_append.mpr (Or.inr hmem)) h6

/-- C7 witness: idempotence at the table token `"plum"` and the no-op at the
canonical hex string `"DDA0DD"`. -/
theorem resolve_idempotent_c7_witness :
    resolveColor (resolveColor "plum") = resolveColor "plum" ∧
    resolveColor "DDA0DD" = "DDA0DD" :=
  ⟨resolve_idempotent_c7.1 "plum" (by decide),
   resolve_idempotent_c7.2 "DDA0DD" (by decide) (by decide)⟩

/-- C5 counterexample: plotting a marker with the unresolvable token `"blep"`
does not store the unmodified token: the stored color is `"lep"`, because
`marker` unconditionally strips the first character (`color[1:]`). -/
theorem marker_passthrough_counterexample_c5 :
    ((GoogleMapPlotter.init 0 0 10 Option.none).marker 0 0 (PyVal.str "blep")
      PyVal.none "x").points.map (fun q => q.2.2.1) ≠ [PyVal.str "blep"] := by
  decide

/-- C5 (amended): a color token that is a key of neither alias table passes
through the two-table resolution chain verbatim and never fails; the marker
plotted with it, however, stores the token with its first character removed
(the unconditional `color[1:]` slice), not the unmodified token. -/
theorem marker_passthrough_c5 (t : String) (h1 : t ∉ mpl_color_map.map Prod.fst)
    (h2 : t ∉ html_color_codes.map Prod.fst) :
    resolveColor t = t ∧
    ∀ (g : GoogleMapPlotter) (lat lng : ℝ) (title : String),
      (g.marker lat lng (PyVal.str t) PyVal.none title).points
        = g.points ++ [(lat, lng, PyVal.str (t.drop 1), title)] := by
  refine ⟨resolveColor_of_not_mem t h1 h2, ?_⟩
  intro g lat lng title
  simp [GoogleMapPlotter.marker, PyVal.truthy, resolveVal,
    resolveColor_of_not_mem t h1 h2, pySlice1]

/-- C5 witness: the amended claim evaluated at the token `"blep"` on a fresh
plotter. -/
theorem marker_passthrough_c5_witness :
    resolveColor "blep" = "blep" ∧
    ((GoogleMapPlotter.init 0 0 10 Option.none).marker 0 0 (PyVal.str "blep")
      PyVal.none "x").points = [((0 : ℝ), (0 : ℝ), PyVal.str "lep", "x")] := by
  refine ⟨(marker_passthrough_c5 "blep" (by decide) (by decide)).1, ?_⟩
  have h := (marker_passthrough_c5 "blep" (by decide) (by decide)).2
    (GoogleMapPlotter.init 0 0 10 Option.none) 0 0 "x"
  simpa [GoogleMapPlotter.init] using h

theorem find?_key_eq_none (kw : List (String × PyVal)) (k : String)
    (h : k ∉ kw.map Prod.fst) : kw.find? (fun e => e.1 == k) = Option.none := by
  rw [List.find?_eq_none]
  intro x hx
  simp only [beq_iff_eq]
  intro he
  exact h (List.mem_map.mpr ⟨x, hx, he⟩)

theorem dget_of_not_mem (kw : List (String × PyVal)) (k : String)
    (h : k ∉ kw.map Prod.fst) : dget kw k = PyVal.none := by
  rw [dget, find?_key_eq_none kw k h]

theorem setdefault_of_not_mem (kw : List (String × PyVal)) (k : String) (v : PyVal)
    (h : k ∉ kw.map Prod.fst) : setdefault kw k v = kw ++ [(k, v)] := by
  rw [setdefault, if_neg]
  intro hc
  rcases List.any_eq_true.mp hc with ⟨e, he, hk⟩
  exact h (List.mem_map.mpr ⟨e, he, beq_iff_eq.mp hk⟩)

theorem dget_append_left_miss (kw1 kw2 : List (String × PyVal)) (k : String)
    (h : k ∉ kw1.map Prod.fst) : dget (kw1 ++ kw2) k = dget kw2 k := by
  rw [dget, List.find?_append, find?_key_eq_none kw1 k h]
  rfl

theorem pyOr_falsy (a b : PyVal) (h : a.truthy = false) : pyOr a b = b := by
  simp [pyOr, h]

theorem pyOr_truthy (a b : PyVal) (h : a.truthy = true) : pyOr a b = a := by
  simp [pyOr, h]

/-- C1 counterexample: a single scatter call of 3 points with `marker=false`
appends 3 entries to the shapes store, not the claimed single batched entry:
`scatter` calls `circle` once per zipped coordinate pair. -/
theorem scatter_per_point_c1_counterexample :
    ((GoogleMapPlotter.init 0 0 10 Option.none).scatter [0, 1, 2] [0, 1, 2]
      (PyVal.str "red") (PyVal.num 40) false PyVal.none PyVal.none
      []).shapes.length ≠ 1 := by
  have h : ((GoogleMapPlotter.init 0 0 10 Option.none).scatter [0, 1, 2] [0, 1, 2]
      (PyVal.str "red") (PyVal.num 40) false PyVal.none PyVal.none
      []).shapes.length = 3 := by
    simp [GoogleMapPlotter.scatter, GoogleMapPlotter.circle, GoogleMapPlotter.init, List.zip]
  rw [h]
  norm_num

/-- C1 (amended): a session whose input is a single scatter run of 3 points
appends exactly 3 entries to the shapes store when `marker=false` (one circle
per point, all sharing the style resolved once by `scatter`), and exactly 3
individual entries to the points store when `marker=true`. -/
theorem scatter_per_point_c1 (g : GoogleMapPlotter) (la1 la2 la3 lo1 lo2 lo3 : ℝ)
    (color size : PyVal) :
    ((g.scatter [la1, la2, la3] [lo1, lo2, lo3] color size false PyVal.none PyVal.none
      []).shapes.length = g.shapes.length + 3) ∧
    ((g.scatter [la1, la2, la3] [lo1, lo2, lo3] color size true PyVal.none PyVal.none
      []).points.length = g.points.length + 3) := by
  constructor
  · simp [GoogleMapPlotter.scatter, GoogleMapPlotter.circle, List.zip]
  · simp [GoogleMapPlotter.scatter, GoogleMapPlotter.marker, List.zip]

/-- C3 counterexample: at center `(0, -180)` with radius `0`, `get_cycle`
returns a point whose longitude is exactly `-180`, which lies outside the
claimed half-open interval `(-180, 180]`: the modulo-then-shift formula
produces longitudes in `[-180, 180)`, closed on the left. -/
theorem get_cycle_longitude_c3_counterexample :
    ∃ q ∈ get_cycle 0 (-180) 0, ¬(-180 < q.2 ∧ q.2 ≤ 180) := by
  refine ⟨destPoint 0 (-180) 0 0, ?_, ?_⟩
  · rw [get_cycle_eq_map]
    refine List.mem_map.mpr ⟨0, ?_, rfl⟩
    simp
  · rw [destPoint_example_snd]
    intro hc
    exact lt_irrefl _ hc.1

/-- C3 (amended): for every center latitude, center longitude and radius,
`get_cycle` returns exactly 36 points, element `i` being the destination point
at bearing `10·i` degrees (so element 0 is at bearing 0, due north, and the
order follows increasing bearing), and every returned longitude lies in the
half-open interval `[-180, 180)` (closed at `-180`, open at `180`, rather than
the claimed `(-180, 180]`). -/
theorem get_cycle_spec_c3 (lat lng rad : ℝ) :
    (get_cycle lat lng rad).length = 36 ∧
    (∀ i : Fin 36, (get_cycle lat lng rad)[(i : ℕ)]? =
      some (destPoint lat lng rad ((i : ℕ) * 10))) ∧
    (get_cycle lat lng rad).Forall (fun q => -180 ≤ q.2 ∧ q.2 < 180) := by
  refine ⟨?_, ?_, ?_⟩
  · rw [get_cycle_eq_map]
    simp
  · intro i
    rw [get_cycle_eq_map, List.getElem?_map, List.getElem?_map,
      List.getElem?_range i.isLt]
    rfl
  · rw [get_cycle_eq_map, List.forall_iff_forall_mem]
    intro q hq
    rcases List.mem_map.mp hq with ⟨a, _, rfl⟩
    exact destPoint_snd_bounds lat lng rad a

/-- C10 counterexample: when `circle` is reached via `scatter` with
`marker=false` and no alpha option supplied anywhere, the stored shape's
`face_alpha` is `0.3`, not the claimed `0.5`: `scatter`'s own style cascade
pre-fills `face_alpha=0.3` into the settings it forwards, so `circle`'s
`setdefault('face_alpha', 0.5)` never fires. -/
theorem circle_face_defaults_c10_counterexample :
    ((GoogleMapPlotter.init 0 0 10 Option.none).scatter [0] [0] PyVal.none PyVal.none false
      PyVal.none PyVal.none []).shapes.map (fun sh => sh.2.face_alpha)
      ≠ [PyVal.num (1/2)] := by
  have h : ((GoogleMapPlotter.init 0 0 10 Option.none).scatter [0] [0] PyVal.none
      PyVal.none false PyVal.none PyVal.none []).shapes.map (fun sh => sh.2.face_alpha)
      = [PyVal.num (3/10)] := by
    simp [GoogleMapPlotter.scatter, GoogleMapPlotter.circle, GoogleMapPlotter.init,
      List.zip, process_kwargs, dget, dset, setdefault, settingsToKwargs, pyOr,
      PyVal.truthy]
  rw [h]
  simp only [ne_eq, List.cons.injEq, and_true, PyVal.num.injEq]
  intro hc
  norm_num at hc

/-- C10 (amended): when `circle` is called directly with no `face_alpha`, `fa`
or `alpha` option (and no face/primary color option and a falsy `color`), the
stored shape has `face_alpha = 0.5` and `face_color = "#000000"`, because
`circle` pre-seeds those defaults before style resolution; but when `circle` is
reached via `scatter` with `marker=false`, `scatter`'s cascade has already
inserted `face_alpha = 0.3` into the forwarded settings, so the stored
`face_alpha` is `0.3`, not `0.5`. -/
theorem circle_face_defaults_c10 :
    (∀ (g : GoogleMapPlotter) (lat lng radius : ℝ) (color c : PyVal)
      (kwargs : List (String × PyVal)),
      "alpha" ∉ kwargs.map Prod.fst → "face_alpha" ∉ kwargs.map Prod.fst →
      "fa" ∉ kwargs.map Prod.fst → "face_color" ∉ kwargs.map Prod.fst →
      "fc" ∉ kwargs.map Prod.fst → "color" ∉ kwargs.map Prod.fst →
      (pyOr color c).truthy = false →
      ((g.circle lat lng radius color c kwargs).shapes.map (fun sh => sh.2.face_alpha)
        = g.shapes.map (fun sh => sh.2.face_alpha) ++ [PyVal.num (1/2)]) ∧
      ((g.circle lat lng radius color c kwargs).shapes.map (fun sh => sh.2.face_color)
        = g.shapes.map (fun sh => sh.2.face_color) ++ [PyVal.str "#000000"])) ∧
    (∀ (g : GoogleMapPlotter) (lat lng : ℝ) (color : PyVal),
      (g.scatter [lat] [lng] color PyVal.none false PyVal.none PyVal.none []).shapes.map
          (fun sh => sh.2.face_alpha)
        = g.shapes.map (fun sh => sh.2.face_alpha) ++ [PyVal.num (3/10)]) := by
  constructor
  · intro g lat lng radius color c kwargs ha hfa2 hfa3 hfc2 hfc3 hco htr
    have h2 : "face_color" ∉
        (kwargs ++ [("face_alpha", PyVal.num (1/2))]).map Prod.fst := by
      intro hc
      simp only [List.map_append, List.mem_append, List.map_cons, List.map_nil,
        List.mem_cons, List.not_mem_nil, or_false] at hc
      rcases hc with hc | hc
      · exact hfc2 hc
      · exact absurd hc (by decide)
    have h3 : "color" ∉
        ((kwargs ++ [("face_alpha", PyVal.num (1/2))]) ++
          [("face_color", PyVal.str "#000000")]).map Prod.fst := by
      intro hc
      simp only [List.map_append, List.mem_append, List.map_cons, List.map_nil,
        List.mem_cons, List.not_mem_nil, or_false] at hc
      rcases hc with (hc | hc) | hc
      · exact hco hc
      · exact absurd hc (by decide)
      · exact absurd hc (by decide)
    have hkw3 : setdefault (setdefault (setdefault kwargs "face_alpha"
        (PyVal.num (1/2))) "face_color" (PyVal.str "#000000")) "color" (pyOr color c)
        = kwargs ++ [("face_alpha", PyVal.num (1/2)),
            ("face_color", PyVal.str "#000000"), ("color", pyOr color c)] := by
      rw [setdefault_of_not_mem kwargs _ _ hfa2, setdefault_of_not_mem _ _ _ h2,
        setdefault_of_not_mem _ _ _ h3]
      simp
    have hga : dget (kwargs ++ [("face_alpha", PyVal.num (1/2)),
        ("face_color", PyVal.str "#000000"), ("color", pyOr color c)]) "alpha"
        = PyVal.none := by
      rw [dget_append_left_miss _ _ _ ha]
      simp [dget, List.find?]
    have hgfa : dget (kwargs ++ [("face_alpha", PyVal.num (1/2)),
        ("face_color", PyVal.str "#000000"), ("color", pyOr color c)]) "face_alpha"
        = PyVal.num (1/2) := by
      rw [dget_append_left_miss _ _ _ hfa2]
      simp [dget, List.find?]
    have hgfc : dget (kwargs ++ [("face_alpha", PyVal.num (1/2)),
        ("face_color", PyVal.str "#000000"), ("color", pyOr color c)]) "face_color"
        = PyVal.str "#000000" := by
      rw [dget_append_left_miss _ _ _ hfc2]
      simp [dget, List.find?]
    have hgco : dget (kwargs ++ [("face_alpha", PyVal.num (1/2)),
        ("face_color", PyVal.str "#000000"), ("color", pyOr color c)]) "color"
        = pyOr color c := by
      rw [dget_append_left_miss _ _ _ hco]
      simp [dget, List.find?]
    have hhalf : (PyVal.num (1/2)).truthy = true := by
      simp [PyVal.truthy]
    have hstr : (PyVal.str "#000000").truthy = true := by decide
    have hres : resolveColor "#000000" = "#000000" := by decide
    constructor
    · simp only [GoogleMapPlotter.circle, hkw3, process_kwargs, List.map_append]
      rw [hga, hgfa]
      simp [pyOr, PyVal.truthy]
    · simp only [GoogleMapPlotter.circle, hkw3, process_kwargs, List.map_append]
      rw [hgco, hgfc]
      rw [pyOr_truthy _ _ hstr]
      have hh : pyOr (pyOr color c) (PyVal.str "#000000") = PyVal.str "#000000" :=
        pyOr_falsy _ _ htr
      simp only [hh, resolveVal, hres]
      simp
  · intro g lat lng color
    simp [GoogleMapPlotter.scatter, GoogleMapPlotter.circle, List.zip, process_kwargs,
      dget, dset, setdefault, settingsToKwargs, pyOr, PyVal.truthy]

/-- C10 witness: the amended claim's direct-call part evaluated on a fresh
plotter with an empty kwargs dictionary. -/
theorem circle_face_defaults_c10_witness :
    ((GoogleMapPlotter.init 0 0 10 Option.none).circle 0 0 5 PyVal.none PyVal.none
      []).shapes.map (fun sh => sh.2.face_alpha) = [PyVal.num (1/2)] ∧
    ((GoogleMapPlotter.init 0 0 10 Option.none).circle 0 0 5 PyVal.none PyVal.none
      []).shapes.map (fun sh => sh.2.face_color) = [PyVal.str "#000000"] := by
  have h := circle_face_defaults_c10.1 (GoogleMapPlotter.init 0 0 10 Option.none)
    0 0 5 PyVal.none PyVal.none [] (by simp) (by simp) (by simp) (by simp) (by simp)
    (by simp) rfl
  exact ⟨by simpa [GoogleMapPlotter.init] using h.1,
    by simpa [GoogleMapPlotter.init] using h.2⟩
